import Mathlib

/-!
# FeatherChorder: key codes and chord tables

A shallow embedding of `KeyCodes.h` (the enumeration `keycodes`) and
`ChordMappings.h` (the three 128-entry chord tables of the 7-button chorder),
followed by the properties established about them.

* An enumerator of `enum keycodes` is a natural number.  An enumerator without
  an initialiser is its predecessor plus one, the first one is `0`, and an
  enumerator written `X = Y` has the value of `Y`.
* `keymap_t` is `uint8_t`: a table entry is the enumerator's value reduced
  modulo `2 ^ 8`.
* A table is the list of its initialisers in source order, so the entry of
  chord `c` is the element at index `c`.
-/

namespace FeatherChorder

/-! ## `KeyCodes.h`: `enum keycodes`

The trailing comments are the ones of the source file. -/

def ENUMKEY__ : Nat := 0  -- 0x00  Unused key-binding
def ENUMKEY_errorRollOver : Nat := ENUMKEY__ + 1
def ENUMKEY_POSTfail : Nat := ENUMKEY_errorRollOver + 1
def ENUMKEY_errorUndefined : Nat := ENUMKEY_POSTfail + 1
def ENUMKEY_A : Nat := ENUMKEY_errorUndefined + 1  -- 0x04
def ENUMKEY_B : Nat := ENUMKEY_A + 1
def ENUMKEY_C : Nat := ENUMKEY_B + 1
def ENUMKEY_D : Nat := ENUMKEY_C + 1
def ENUMKEY_E : Nat := ENUMKEY_D + 1
def ENUMKEY_F : Nat := ENUMKEY_E + 1
def ENUMKEY_G : Nat := ENUMKEY_F + 1
def ENUMKEY_H : Nat := ENUMKEY_G + 1
def ENUMKEY_I : Nat := ENUMKEY_H + 1
def ENUMKEY_J : Nat := ENUMKEY_I + 1
def ENUMKEY_K : Nat := ENUMKEY_J + 1
def ENUMKEY_L : Nat := ENUMKEY_K + 1
def ENUMKEY_M : Nat := ENUMKEY_L + 1  -- 0x10
def ENUMKEY_N : Nat := ENUMKEY_M + 1
def ENUMKEY_O : Nat := ENUMKEY_N + 1
def ENUMKEY_P : Nat := ENUMKEY_O + 1
def ENUMKEY_Q : Nat := ENUMKEY_P + 1
def ENUMKEY_R : Nat := ENUMKEY_Q + 1
def ENUMKEY_S : Nat := ENUMKEY_R + 1
def ENUMKEY_T : Nat := ENUMKEY_S + 1
def ENUMKEY_U : Nat := ENUMKEY_T + 1
def ENUMKEY_V : Nat := ENUMKEY_U + 1
def ENUMKEY_W : Nat := ENUMKEY_V + 1
def ENUMKEY_X : Nat := ENUMKEY_W + 1
def ENUMKEY_Y : Nat := ENUMKEY_X + 1
def ENUMKEY_Z : Nat := ENUMKEY_Y + 1
def ENUMKEY_1 : Nat := ENUMKEY_Z + 1
def ENUMKEY_2 : Nat := ENUMKEY_1 + 1
def ENUMKEY_3 : Nat := ENUMKEY_2 + 1  -- 0x20
def ENUMKEY_4 : Nat := ENUMKEY_3 + 1
def ENUMKEY_5 : Nat := ENUMKEY_4 + 1
def ENUMKEY_6 : Nat := ENUMKEY_5 + 1
def ENUMKEY_7 : Nat := ENUMKEY_6 + 1
def ENUMKEY_8 : Nat := ENUMKEY_7 + 1
def ENUMKEY_9 : Nat := ENUMKEY_8 + 1
def ENUMKEY_0 : Nat := ENUMKEY_9 + 1  -- 0x27
def ENUMKEY_enter : Nat := ENUMKEY_0 + 1  -- 0x28
def ENUMKEY_esc : Nat := ENUMKEY_enter + 1  -- 0x29
def ENUMKEY_bckspc : Nat := ENUMKEY_esc + 1  -- 0x2A  backspace
def ENUMKEY_tab : Nat := ENUMKEY_bckspc + 1  -- 0x2B
def ENUMKEY_spc : Nat := ENUMKEY_tab + 1  -- 0x2C  space
def ENUMKEY_minus : Nat := ENUMKEY_spc + 1  -- 0x2D  - (and _)
def ENUMKEY_equal : Nat := ENUMKEY_minus + 1  -- 0x2E  = (and +)
def ENUMKEY_lbr : Nat := ENUMKEY_equal + 1  -- 0x2F  [
def ENUMKEY_rbr : Nat := ENUMKEY_lbr + 1  -- 0x30  ]
def ENUMKEY_bckslsh : Nat := ENUMKEY_rbr + 1  -- 0x31  \ (and |)
def ENUMKEY_hash : Nat := ENUMKEY_bckslsh + 1  -- 0x32  Non-US # and ~
def ENUMKEY_smcol : Nat := ENUMKEY_hash + 1  -- 0x33  ; (and :)
def ENUMKEY_ping : Nat := ENUMKEY_smcol + 1  -- 0x34  ' and "
def ENUMKEY_grave : Nat := ENUMKEY_ping + 1  -- 0x35  Grave accent and tilde
def ENUMKEY_comma : Nat := ENUMKEY_grave + 1  -- 0x36  , (and <)
def ENUMKEY_dot : Nat := ENUMKEY_comma + 1  -- 0x37  . (and >)
def ENUMKEY_slash : Nat := ENUMKEY_dot + 1  -- 0x38  / (and ?)
def ENUMKEY_cpslck : Nat := ENUMKEY_slash + 1  -- 0x39  capslock
def ENUMKEY_F1 : Nat := ENUMKEY_cpslck + 1
def ENUMKEY_F2 : Nat := ENUMKEY_F1 + 1
def ENUMKEY_F3 : Nat := ENUMKEY_F2 + 1
def ENUMKEY_F4 : Nat := ENUMKEY_F3 + 1
def ENUMKEY_F5 : Nat := ENUMKEY_F4 + 1
def ENUMKEY_F6 : Nat := ENUMKEY_F5 + 1
def ENUMKEY_F7 : Nat := ENUMKEY_F6 + 1  -- 0x40
def ENUMKEY_F8 : Nat := ENUMKEY_F7 + 1
def ENUMKEY_F9 : Nat := ENUMKEY_F8 + 1
def ENUMKEY_F10 : Nat := ENUMKEY_F9 + 1
def ENUMKEY_F11 : Nat := ENUMKEY_F10 + 1
def ENUMKEY_F12 : Nat := ENUMKEY_F11 + 1
def ENUMKEY_PrtScr : Nat := ENUMKEY_F12 + 1
def ENUMKEY_scrlck : Nat := ENUMKEY_PrtScr + 1
def ENUMKEY_break : Nat := ENUMKEY_scrlck + 1
def ENUMKEY_ins : Nat := ENUMKEY_break + 1
def ENUMKEY_home : Nat := ENUMKEY_ins + 1
def ENUMKEY_pgup : Nat := ENUMKEY_home + 1
def ENUMKEY_del : Nat := ENUMKEY_pgup + 1
def ENUMKEY_end : Nat := ENUMKEY_del + 1
def ENUMKEY_pgdn : Nat := ENUMKEY_end + 1
def ENUMKEY_rarr : Nat := ENUMKEY_pgdn + 1
def ENUMKEY_larr : Nat := ENUMKEY_rarr + 1  -- 0x50
def ENUMKEY_darr : Nat := ENUMKEY_larr + 1
def ENUMKEY_uarr : Nat := ENUMKEY_darr + 1
def ENUMKEY_numlock : Nat := ENUMKEY_uarr + 1
def ENUMKEY_KPslash : Nat := ENUMKEY_numlock + 1
def ENUMKEY_KPast : Nat := ENUMKEY_KPslash + 1
def ENUMKEY_KPminus : Nat := ENUMKEY_KPast + 1
def ENUMKEY_KPplus : Nat := ENUMKEY_KPminus + 1
def ENUMKEY_KPenter : Nat := ENUMKEY_KPplus + 1
def ENUMKEY_KP1 : Nat := ENUMKEY_KPenter + 1
def ENUMKEY_KP2 : Nat := ENUMKEY_KP1 + 1
def ENUMKEY_KP3 : Nat := ENUMKEY_KP2 + 1
def ENUMKEY_KP4 : Nat := ENUMKEY_KP3 + 1
def ENUMKEY_KP5 : Nat := ENUMKEY_KP4 + 1  -- 0x5E
def ENUMKEY_KP6 : Nat := ENUMKEY_KP5 + 1
def ENUMKEY_KP7 : Nat := ENUMKEY_KP6 + 1
def ENUMKEY_KP8 : Nat := ENUMKEY_KP7 + 1  -- 0x60
def ENUMKEY_KP9 : Nat := ENUMKEY_KP8 + 1
def ENUMKEY_KP0 : Nat := ENUMKEY_KP9 + 1
def ENUMKEY_KPcomma : Nat := ENUMKEY_KP0 + 1
def ENUMKEY_Euro2 : Nat := ENUMKEY_KPcomma + 1
def DIV_Mods : Nat := ENUMKEY_Euro2 + 1
def MOD_LCTRL : Nat := DIV_Mods  -- 0x01
def MOD_LSHIFT : Nat := MOD_LCTRL + 1  -- 0x02
def MOD_LALT : Nat := MOD_LSHIFT + 1  -- 0x04
def MOD_LGUI : Nat := MOD_LALT + 1  -- 0x08
def MOD_RCTRL : Nat := MOD_LGUI + 1  -- 0x10
def MOD_RSHIFT : Nat := MOD_RCTRL + 1  -- 0x20
def MOD_RALT : Nat := MOD_RSHIFT + 1  -- 0x40
def MOD_RGUI : Nat := MOD_RALT + 1  -- 0x80
def DIV_Modes : Nat := MOD_RGUI + 1
def MODE_RESET : Nat := DIV_Modes  -- Reset (Default mode)
def MODE_MRESET : Nat := MODE_RESET + 1  -- Master Reset and ID
def MODE_NUM : Nat := MODE_MRESET + 1  -- Number/symbols mode
def MODE_NUMLCK : Nat := MODE_NUM + 1  -- Number/symbols lock
def MODE_FUNC : Nat := MODE_NUMLCK + 1  -- Function key mode
def MODE_FUNCLCK : Nat := MODE_FUNC + 1  -- Function key lock
def DIV_Multi : Nat := MODE_FUNCLCK + 1
def MULTI_NumShift : Nat := DIV_Multi
def MULTI_CtlAlt : Nat := MULTI_NumShift + 1
def MEDIA_playpause : Nat := MULTI_CtlAlt + 1  -- PLAYPAUSE
def MEDIA_next : Nat := MEDIA_playpause + 1  -- MEDIANEXT
def MEDIA_previous : Nat := MEDIA_next + 1  -- MEDIAPREVIOUS
def MEDIA_stop : Nat := MEDIA_previous + 1  -- MEDIASTOP
def MEDIA_volup : Nat := MEDIA_stop + 1  -- Volume up
def MEDIA_voldn : Nat := MEDIA_volup + 1  -- Volume dn
def DIV_Macro : Nat := MEDIA_voldn + 1
def MACRO_000 : Nat := DIV_Macro  -- 000
def MACRO_00 : Nat := MACRO_000 + 1  -- 00
def MACRO_quotes : Nat := MACRO_00 + 1  -- "" and left arrow
def MACRO_parens : Nat := MACRO_quotes + 1  -- () and left arrow
def MACRO_dollar : Nat := MACRO_parens + 1  -- aka, FORCE_LSHIFT|KEY_4
def MACRO_percent : Nat := MACRO_dollar + 1  -- aka, FORCE_LSHIFT|KEY_5
def MACRO_ampersand : Nat := MACRO_percent + 1  -- aka, FORCE_LSHIFT|KEY_7
def MACRO_asterisk : Nat := MACRO_ampersand + 1  -- aka, FORCE_LSHIFT|KEY_8
def MACRO_question : Nat := MACRO_asterisk + 1  -- aka, FORCE_LSHIFT|KEY_slash
def MACRO_plus : Nat := MACRO_question + 1  -- aka, FORCE_LSHIFT|KEY_equal
def MACRO_openparen : Nat := MACRO_plus + 1  -- aka, FORCE_LSHIFT|KEY_9
def MACRO_closeparen : Nat := MACRO_openparen + 1  -- aka, FORCE_LSHIFT|KEY_0
def MACRO_opencurly : Nat := MACRO_closeparen + 1  -- aka, FORCE_LSHIFT|lbr
def MACRO_closecurly : Nat := MACRO_opencurly + 1  -- aka, FORCE_LSHIFT|rbr
def ANDROID_search : Nat := MACRO_closecurly + 1  -- aka, ALT|KEY_spc
def ANDROID_home : Nat := ANDROID_search + 1  -- aka, ALT|KEY_esc
def ANDROID_menu : Nat := ANDROID_home + 1  -- aka, CTRL|KEY_esc
def ANDROID_back : Nat := ANDROID_menu + 1  -- aka, KEY_esc with NO MODS
def ANDROID_dpadcenter : Nat := ANDROID_back + 1  -- aka, KEY_KP5 with NO MODS
def BAT_LVL : Nat := ANDROID_dpadcenter + 1  -- print the batter level of the  LiPo
def FACT_RESET : Nat := BAT_LVL + 1  -- do a factory reset (clearing  all BT  paring info)
def DIV_Last : Nat := FACT_RESET + 1

/-! ## `ChordMappings.h`: the chord tables

Button order of a chord, high bit to low bit: Far thumb, Center thumb, Near
thumb, Index, Middle, Ring, Pinky (`FCN IMRP`). -/

/-- The element type of the tables, `typedef uint8_t keymap_t`: storing a value
in a table narrows it to eight bits. -/
def keymap_t (v : Nat) : Nat := v % 2 ^ 8

/-- Default table, `const keymap_t keymap_default[128]`. -/
def keymap_default : List Nat := List.map keymap_t [
  ENUMKEY__, ENUMKEY_W, ENUMKEY_Y, ENUMKEY_U,  -- 0x00..0x03
  ENUMKEY_R, MACRO_openparen, ENUMKEY_H, ENUMKEY_S,  -- 0x04..0x07
  ENUMKEY_I, ENUMKEY_B, ENUMKEY_K, ENUMKEY_Z,  -- 0x08..0x0B
  ENUMKEY_D, MACRO_closeparen, ENUMKEY_E, ENUMKEY_T,  -- 0x0C..0x0F
  MODE_NUM, MODE_FUNC, ENUMKEY_esc, ENUMKEY_smcol,  -- 0x10..0x13
  ENUMKEY_comma, MACRO_closecurly, ENUMKEY_dot, MOD_LALT,  -- 0x14..0x17
  ENUMKEY__, ENUMKEY_ins, MOD_LGUI, MOD_LCTRL,  -- 0x18..0x1B
  ENUMKEY_F9, MACRO_opencurly, ENUMKEY_ping, MODE_NUMLCK,  -- 0x1C..0x1F
  ENUMKEY_spc, ENUMKEY_F, ENUMKEY_G, ENUMKEY_V,  -- 0x20..0x23
  ENUMKEY_C, ENUMKEY_rbr, ENUMKEY_P, ENUMKEY_N,  -- 0x24..0x27
  ENUMKEY_L, ENUMKEY_X, ENUMKEY_J, ENUMKEY_Q,  -- 0x28..0x2B
  ENUMKEY_M, ENUMKEY_lbr, ENUMKEY_A, ENUMKEY_O,  -- 0x2C..0x2F
  MULTI_NumShift, ENUMKEY__, ENUMKEY__, ENUMKEY__,  -- 0x30..0x33
  ANDROID_dpadcenter, ENUMKEY__, ANDROID_home, MOD_RALT,  -- 0x34..0x37
  ENUMKEY__, ANDROID_back, MOD_RGUI, MOD_RCTRL,  -- 0x38..0x3B
  ANDROID_menu, ENUMKEY__, ANDROID_search, ENUMKEY_numlock,  -- 0x3C..0x3F
  MOD_LSHIFT, ENUMKEY_enter, ENUMKEY_rarr, ENUMKEY_darr,  -- 0x40..0x43
  ENUMKEY_bckspc, ENUMKEY_PrtScr, ENUMKEY_del, ENUMKEY_pgdn,  -- 0x44..0x47
  ENUMKEY_larr, ENUMKEY_end, ENUMKEY_tab, ENUMKEY_home,  -- 0x48..0x4B
  ENUMKEY_uarr, ENUMKEY_scrlck, ENUMKEY_pgup, ENUMKEY_cpslck,  -- 0x4C..0x4F
  ENUMKEY_break, ENUMKEY__, ENUMKEY__, ENUMKEY__,  -- 0x50..0x53
  ENUMKEY__, ENUMKEY__, ENUMKEY__, ENUMKEY__,  -- 0x54..0x57
  ENUMKEY__, ENUMKEY__, ENUMKEY__, ENUMKEY__,  -- 0x58..0x5B
  ENUMKEY__, ENUMKEY__, ENUMKEY__, ENUMKEY__,  -- 0x5C..0x5F
  MOD_RSHIFT, ENUMKEY_KPenter, ENUMKEY_KP6, MEDIA_volup,  -- 0x60..0x63
  MEDIA_stop, ENUMKEY_KPast, MEDIA_playpause, MEDIA_next,  -- 0x64..0x67
  ENUMKEY_KP4, MEDIA_previous, ENUMKEY_KPminus, ENUMKEY_KP7,  -- 0x68..0x6B
  MEDIA_voldn, ENUMKEY_KPslash, MEDIA_previous, ENUMKEY_KP0,  -- 0x6C..0x6F
  MODE_MRESET, ENUMKEY__, ENUMKEY__, ENUMKEY__,  -- 0x70..0x73
  ENUMKEY__, ENUMKEY__, ENUMKEY__, ENUMKEY__,  -- 0x74..0x77
  ENUMKEY__, ENUMKEY__, ENUMKEY__, ENUMKEY__,  -- 0x78..0x7B
  ENUMKEY__, ENUMKEY__, ENUMKEY__, ENUMKEY__  -- 0x7C..0x7F
]

/-- Table of the number/symbols mode, `const keymap_t keymap_numsym[128]`. -/
def keymap_numsym : List Nat := List.map keymap_t [
  ENUMKEY__, ENUMKEY_5, ENUMKEY_4, MACRO_quotes,  -- 0x00..0x03
  ENUMKEY_3, ENUMKEY__, MACRO_00, ENUMKEY_minus,  -- 0x04..0x07
  ENUMKEY_2, ENUMKEY_bckslsh, MACRO_dollar, ENUMKEY_grave,  -- 0x08..0x0B
  ENUMKEY_slash, ENUMKEY__, ENUMKEY_equal, MACRO_000,  -- 0x0C..0x0F
  ENUMKEY_spc, MODE_FUNC, ENUMKEY_esc, ENUMKEY_smcol,  -- 0x10..0x13
  ENUMKEY_comma, ENUMKEY__, ENUMKEY_dot, MOD_LALT,  -- 0x14..0x17
  ENUMKEY__, ENUMKEY_ins, MOD_LGUI, MOD_LCTRL,  -- 0x18..0x1B
  ENUMKEY__, ENUMKEY__, ENUMKEY_ping, MODE_RESET,  -- 0x1C..0x1F
  ENUMKEY_1, ENUMKEY_9, ENUMKEY_8, ENUMKEY_rbr,  -- 0x20..0x23
  ENUMKEY_7, ENUMKEY_rbr, MACRO_percent, ENUMKEY_lbr,  -- 0x24..0x27
  ENUMKEY_6, MACRO_ampersand, MACRO_parens, MACRO_question,  -- 0x28..0x2B
  MACRO_asterisk, ENUMKEY_lbr, MACRO_plus, ENUMKEY_0,  -- 0x2C..0x2F
  MULTI_NumShift, ENUMKEY__, ENUMKEY__, ENUMKEY__,  -- 0x30..0x33
  ANDROID_dpadcenter, ENUMKEY__, ANDROID_home, MOD_RALT,  -- 0x34..0x37
  ENUMKEY__, ANDROID_back, MOD_RGUI, MOD_RCTRL,  -- 0x38..0x3B
  ANDROID_menu, ENUMKEY__, ANDROID_search, ENUMKEY_numlock,  -- 0x3C..0x3F
  MOD_LSHIFT, ENUMKEY_enter, ENUMKEY_rarr, ENUMKEY_darr,  -- 0x40..0x43
  ENUMKEY_bckspc, ENUMKEY_PrtScr, ENUMKEY_del, ENUMKEY_pgdn,  -- 0x44..0x47
  ENUMKEY_larr, ENUMKEY_end, ENUMKEY_tab, ENUMKEY_home,  -- 0x48..0x4B
  ENUMKEY_uarr, ENUMKEY_scrlck, ENUMKEY_pgup, ENUMKEY_cpslck,  -- 0x4C..0x4F
  ENUMKEY_break, ENUMKEY__, ENUMKEY__, ENUMKEY__,  -- 0x50..0x53
  ENUMKEY__, ENUMKEY__, ENUMKEY__, ENUMKEY__,  -- 0x54..0x57
  ENUMKEY__, ENUMKEY__, ENUMKEY__, ENUMKEY__,  -- 0x58..0x5B
  ENUMKEY__, ENUMKEY__, ENUMKEY__, ENUMKEY__,  -- 0x5C..0x5F
  MOD_RSHIFT, ENUMKEY_KPenter, ENUMKEY_KP6, ENUMKEY_KP2,  -- 0x60..0x63
  ENUMKEY_KP5, ENUMKEY_KPast, ENUMKEY_KPcomma, ENUMKEY_KP3,  -- 0x64..0x67
  ENUMKEY_KP4, ENUMKEY_KP1, ENUMKEY_KPminus, ENUMKEY_KP7,  -- 0x68..0x6B
  ENUMKEY_KP8, ENUMKEY_KPslash, ENUMKEY_KP9, ENUMKEY_KP0,  -- 0x6C..0x6F
  MODE_RESET, ENUMKEY__, ENUMKEY__, ENUMKEY__,  -- 0x70..0x73
  ENUMKEY__, ENUMKEY__, ENUMKEY__, ENUMKEY__,  -- 0x74..0x77
  ENUMKEY__, ENUMKEY__, ENUMKEY__, ENUMKEY__,  -- 0x78..0x7B
  ENUMKEY__, ENUMKEY__, ENUMKEY__, ENUMKEY__  -- 0x7C..0x7F
]

/-- Table of the function key mode, `const keymap_t keymap_function[128]`. -/
def keymap_function : List Nat := List.map keymap_t [
  ENUMKEY__, ENUMKEY_F5, ENUMKEY_F4, MEDIA_volup,  -- 0x00..0x03
  ENUMKEY_F3, ENUMKEY__, ENUMKEY__, MEDIA_stop,  -- 0x04..0x07
  ENUMKEY_F2, MEDIA_previous, ENUMKEY__, ENUMKEY__,  -- 0x08..0x0B
  MEDIA_voldn, ENUMKEY__, ENUMKEY__, ENUMKEY__,  -- 0x0C..0x0F
  ENUMKEY__, MODE_RESET, ENUMKEY__, ENUMKEY__,  -- 0x10..0x13
  ENUMKEY__, ENUMKEY__, ENUMKEY__, MOD_LALT,  -- 0x14..0x17
  ENUMKEY__, ENUMKEY__, MOD_LGUI, MOD_LCTRL,  -- 0x18..0x1B
  ENUMKEY__, ENUMKEY__, ENUMKEY__, ENUMKEY__,  -- 0x1C..0x1F
  ENUMKEY_F1, ENUMKEY_F9, ENUMKEY_F8, ENUMKEY_F12,  -- 0x20..0x23
  ENUMKEY_F7, ENUMKEY__, ENUMKEY_F11, ENUMKEY__,  -- 0x24..0x27
  ENUMKEY_F6, ENUMKEY__, ENUMKEY__, ENUMKEY__,  -- 0x28..0x2B
  ENUMKEY_F10, ENUMKEY__, ENUMKEY__, ENUMKEY__,  -- 0x2C..0x2F
  MULTI_NumShift, ENUMKEY__, ENUMKEY__, ENUMKEY__,  -- 0x30..0x33
  ANDROID_dpadcenter, ENUMKEY__, ANDROID_home, MOD_RALT,  -- 0x34..0x37
  ENUMKEY__, ANDROID_back, MOD_RGUI, MOD_RCTRL,  -- 0x38..0x3B
  ANDROID_menu, ENUMKEY__, ANDROID_search, ENUMKEY__,  -- 0x3C..0x3F
  MOD_LSHIFT, ENUMKEY__, ENUMKEY__, ENUMKEY__,  -- 0x40..0x43
  ENUMKEY__, ENUMKEY__, MEDIA_playpause, MEDIA_next,  -- 0x44..0x47
  MEDIA_previous, ENUMKEY__, ENUMKEY__, ENUMKEY__,  -- 0x48..0x4B
  ENUMKEY__, ENUMKEY__, ENUMKEY__, ENUMKEY__,  -- 0x4C..0x4F
  ENUMKEY__, ENUMKEY__, ENUMKEY__, ENUMKEY__,  -- 0x50..0x53
  ENUMKEY__, ENUMKEY__, ENUMKEY__, ENUMKEY__,  -- 0x54..0x57
  ENUMKEY__, ENUMKEY__, ENUMKEY__, ENUMKEY__,  -- 0x58..0x5B
  ENUMKEY__, ENUMKEY__, ENUMKEY__, ENUMKEY__,  -- 0x5C..0x5F
  MOD_RSHIFT, ENUMKEY__, ENUMKEY__, ENUMKEY__,  -- 0x60..0x63
  ENUMKEY__, ENUMKEY__, ENUMKEY__, ENUMKEY__,  -- 0x64..0x67
  ENUMKEY__, ENUMKEY__, ENUMKEY__, ENUMKEY__,  -- 0x68..0x6B
  ENUMKEY__, ENUMKEY__, ENUMKEY__, ENUMKEY__,  -- 0x6C..0x6F
  MODE_RESET, ENUMKEY__, ENUMKEY__, ENUMKEY__,  -- 0x70..0x73
  ENUMKEY__, ENUMKEY__, ENUMKEY__, ENUMKEY__,  -- 0x74..0x77
  ENUMKEY__, ENUMKEY__, ENUMKEY__, ENUMKEY__,  -- 0x78..0x7B
  ENUMKEY__, ENUMKEY__, ENUMKEY__, ENUMKEY__  -- 0x7C..0x7F
]

/-- The three tables of `ChordMappings.h`, by the mode they serve. -/
inductive Mode where
  | Default
  | NumSym
  | Function
  deriving DecidableEq, Repr

/-- The table of a mode: `keymap_default`, `keymap_numsym` (number/symbols
mode) or `keymap_function` (function key mode). -/
def keymap : Mode → List Nat
  | Mode.Default => keymap_default
  | Mode.NumSym => keymap_numsym
  | Mode.Function => keymap_function

/-- The groups into which the comments and the `DIV_` markers of `enum keycodes`
divide the enumeration: the unused binding, the scan-codes, the modifier keys,
the mode change codes, the special num/sym-and-shift modes, the media keys and
the macros. -/
inductive TokenClass where
  | NoOp
  | Plain
  | Modifier
  | ModeChange
  | Combinator
  | Media
  | Macro
  deriving DecidableEq, Repr

/-- The values of a group, delimited by the enumerators that open and close it
in `enum keycodes`. -/
def inClass : TokenClass → Nat → Bool
  | TokenClass.NoOp, v => v == ENUMKEY__
  | TokenClass.Plain, v => decide (ENUMKEY__ < v) && decide (v < DIV_Mods)
  | TokenClass.Modifier, v => decide (DIV_Mods ≤ v) && decide (v < DIV_Modes)
  | TokenClass.ModeChange, v => decide (DIV_Modes ≤ v) && decide (v < DIV_Multi)
  | TokenClass.Combinator, v => decide (MULTI_NumShift ≤ v) && decide (v ≤ MULTI_CtlAlt)
  | TokenClass.Media, v => decide (MEDIA_playpause ≤ v) && decide (v ≤ MEDIA_voldn)
  | TokenClass.Macro, v => decide (DIV_Macro ≤ v) && decide (v < DIV_Last)

/-! ## Macro expansion

The decoder (`FeatherChorder.ino`) is not part of the sources at hand; what a
macro token expands to is taken from the spec where the spec spells it out, and
otherwise from the comment beside the token's declaration in `KeyCodes.h`. -/

/-- The modifier a macro forces on one of its keys, in the words of the comments
of `KeyCodes.h`: `NO MODS`, `FORCE_LSHIFT`, `ALT`, `CTRL`. -/
inductive ForcedMod where
  | NoMods
  | LShift
  | Alt
  | Ctrl
  deriving DecidableEq, Repr

/-- Modelled from the spec: the macro expander `expand(macroToken)` of section
4.4, whose code (`FeatherChorder.ino`) is missing from the sources.  A macro
token maps to a fixed, ordered list of (forced-modifier, keycode) pairs, each
pair standing for one press/release.  The two expansions the spec spells out are
taken from it: `MACRO_parens` is Shift+9, Shift+0, then a plain Left-Arrow
(section 4.4), and `MACRO_openparen` is Shift+9, then Left-Arrow (section 8).
The list of every other token is the one documented beside its declaration in
`KeyCodes.h` (`000`, `aka, FORCE_LSHIFT|KEY_4`, ...).  A token for which no key
list is documented has no expansion here. -/
def expand (token : Nat) : Option (List (ForcedMod × Nat)) :=
  if token = MACRO_000 then
    some [(ForcedMod.NoMods, ENUMKEY_0), (ForcedMod.NoMods, ENUMKEY_0),
      (ForcedMod.NoMods, ENUMKEY_0)]
  else if token = MACRO_00 then
    some [(ForcedMod.NoMods, ENUMKEY_0), (ForcedMod.NoMods, ENUMKEY_0)]
  else if token = MACRO_quotes then
    some [(ForcedMod.LShift, ENUMKEY_ping), (ForcedMod.LShift, ENUMKEY_ping),
      (ForcedMod.NoMods, ENUMKEY_larr)]
  else if token = MACRO_parens then
    some [(ForcedMod.LShift, ENUMKEY_9), (ForcedMod.LShift, ENUMKEY_0),
      (ForcedMod.NoMods, ENUMKEY_larr)]
  else if token = MACRO_dollar then some [(ForcedMod.LShift, ENUMKEY_4)]
  else if token = MACRO_percent then some [(ForcedMod.LShift, ENUMKEY_5)]
  else if token = MACRO_ampersand then some [(ForcedMod.LShift, ENUMKEY_7)]
  else if token = MACRO_asterisk then some [(ForcedMod.LShift, ENUMKEY_8)]
  else if token = MACRO_question then some [(ForcedMod.LShift, ENUMKEY_slash)]
  else if token = MACRO_plus then some [(ForcedMod.LShift, ENUMKEY_equal)]
  else if token = MACRO_openparen then
    some [(ForcedMod.LShift, ENUMKEY_9), (ForcedMod.NoMods, ENUMKEY_larr)]
  else if token = MACRO_closeparen then some [(ForcedMod.LShift, ENUMKEY_0)]
  else if token = MACRO_opencurly then some [(ForcedMod.LShift, ENUMKEY_lbr)]
  else if token = MACRO_closecurly then some [(ForcedMod.LShift, ENUMKEY_rbr)]
  else if token = ANDROID_search then some [(ForcedMod.Alt, ENUMKEY_spc)]
  else if token = ANDROID_home then some [(ForcedMod.Alt, ENUMKEY_esc)]
  else if token = ANDROID_menu then some [(ForcedMod.Ctrl, ENUMKEY_esc)]
  else if token = ANDROID_back then some [(ForcedMod.NoMods, ENUMKEY_esc)]
  else if token = ANDROID_dpadcenter then some [(ForcedMod.NoMods, ENUMKEY_KP5)]
  else none

/-! ## The tokens of `enum keycodes`

The enumerators that name an action; the `DIV_` markers only delimit the groups. -/

/-- The enumerators of `enum keycodes` other than the `DIV_` markers (`DIV_Mods`,
`DIV_Modes`, `DIV_Multi`, `DIV_Macro`, `DIV_Last`), in declaration order: the
element at index `i` is the value of the `i`-th such enumerator. -/
def keycodes : List Nat := [
  ENUMKEY__, ENUMKEY_errorRollOver, ENUMKEY_POSTfail, ENUMKEY_errorUndefined,
  ENUMKEY_A, ENUMKEY_B, ENUMKEY_C, ENUMKEY_D,
  ENUMKEY_E, ENUMKEY_F, ENUMKEY_G, ENUMKEY_H,
  ENUMKEY_I, ENUMKEY_J, ENUMKEY_K, ENUMKEY_L,
  ENUMKEY_M, ENUMKEY_N, ENUMKEY_O, ENUMKEY_P,
  ENUMKEY_Q, ENUMKEY_R, ENUMKEY_S, ENUMKEY_T,
  ENUMKEY_U, ENUMKEY_V, ENUMKEY_W, ENUMKEY_X,
  ENUMKEY_Y, ENUMKEY_Z, ENUMKEY_1, ENUMKEY_2,
  ENUMKEY_3, ENUMKEY_4, ENUMKEY_5, ENUMKEY_6,
  ENUMKEY_7, ENUMKEY_8, ENUMKEY_9, ENUMKEY_0,
  ENUMKEY_enter, ENUMKEY_esc, ENUMKEY_bckspc, ENUMKEY_tab,
  ENUMKEY_spc, ENUMKEY_minus, ENUMKEY_equal, ENUMKEY_lbr,
  ENUMKEY_rbr, ENUMKEY_bckslsh, ENUMKEY_hash, ENUMKEY_smcol,
  ENUMKEY_ping, ENUMKEY_grave, ENUMKEY_comma, ENUMKEY_dot,
  ENUMKEY_slash, ENUMKEY_cpslck, ENUMKEY_F1, ENUMKEY_F2,
  ENUMKEY_F3, ENUMKEY_F4, ENUMKEY_F5, ENUMKEY_F6,
  ENUMKEY_F7, ENUMKEY_F8, ENUMKEY_F9, ENUMKEY_F10,
  ENUMKEY_F11, ENUMKEY_F12, ENUMKEY_PrtScr, ENUMKEY_scrlck,
  ENUMKEY_break, ENUMKEY_ins, ENUMKEY_home, ENUMKEY_pgup,
  ENUMKEY_del, ENUMKEY_end, ENUMKEY_pgdn, ENUMKEY_rarr,
  ENUMKEY_larr, ENUMKEY_darr, ENUMKEY_uarr, ENUMKEY_numlock,
  ENUMKEY_KPslash, ENUMKEY_KPast, ENUMKEY_KPminus, ENUMKEY_KPplus,
  ENUMKEY_KPenter, ENUMKEY_KP1, ENUMKEY_KP2, ENUMKEY_KP3,
  ENUMKEY_KP4, ENUMKEY_KP5, ENUMKEY_KP6, ENUMKEY_KP7,
  ENUMKEY_KP8, ENUMKEY_KP9, ENUMKEY_KP0, ENUMKEY_KPcomma,
  ENUMKEY_Euro2, MOD_LCTRL, MOD_LSHIFT, MOD_LALT,
  MOD_LGUI, MOD_RCTRL, MOD_RSHIFT, MOD_RALT,
  MOD_RGUI, MODE_RESET, MODE_MRESET, MODE_NUM,
  MODE_NUMLCK, MODE_FUNC, MODE_FUNCLCK, MULTI_NumShift,
  MULTI_CtlAlt, MEDIA_playpause, MEDIA_next, MEDIA_previous,
  MEDIA_stop, MEDIA_volup, MEDIA_voldn, MACRO_000,
  MACRO_00, MACRO_quotes, MACRO_parens, MACRO_dollar,
  MACRO_percent, MACRO_ampersand, MACRO_asterisk, MACRO_question,
  MACRO_plus, MACRO_openparen, MACRO_closeparen, MACRO_opencurly,
  MACRO_closecurly, ANDROID_search, ANDROID_home, ANDROID_menu,
  ANDROID_back, ANDROID_dpadcenter, BAT_LVL, FACT_RESET
]

/-! ## Properties -/

set_option maxRecDepth 100000

/-- Every table has 128 entries. -/
theorem keymap_length (m : Mode) : (keymap m).length = 128 := by
  cases m <;> rfl

/-- An index past the last chord finds nothing in any table. -/
theorem keymap_none_of_ge (m : Mode) (c : Nat) (hc : 128 ≤ c) : (keymap m)[c]? = none := by
  rw [List.getElem?_eq_none_iff, keymap_length]
  exact hc

/-- C1: each of `keymap_default`, `keymap_numsym` and `keymap_function` holds
exactly 128 entries, and for every mode and every chord value `c` with
`0 ≤ c ≤ 127` the lookup `table[c]` is defined. -/
theorem keymap_lookup_total :
    keymap_default.length = 128 ∧ keymap_numsym.length = 128 ∧
    keymap_function.length = 128 ∧
    ∀ (m : Mode) (c : Nat), c ≤ 127 → (keymap m)[c]? ≠ none := by
  refine ⟨rfl, rfl, rfl, ?_⟩
  intro m c hc h
  rw [List.getElem?_eq_none_iff, keymap_length] at h
  omega

/-- C1 at chord `0x7F` of the function key table. -/
theorem keymap_lookup_total_witness : (keymap Mode.Function)[0x7F]? ≠ none :=
  keymap_lookup_total.2.2.2 Mode.Function 0x7F (by decide)

/-- C2: for every mode and every chord `0..127` the stored entry is either
`ENUMKEY__` (value 0) or lies in `ENUMKEY_A ≤ v < DIV_Last`; it is none of the
HID error codes and not the end marker `DIV_Last`. -/
theorem keymap_entry_recognised (m : Mode) (c : Nat) (hc : c ≤ 127) :
    ∃ v, (keymap m)[c]? = some v ∧
      ((v = ENUMKEY__ ∧ v = 0) ∨ (ENUMKEY_A ≤ v ∧ v < DIV_Last)) ∧
      v ≠ ENUMKEY_errorRollOver ∧ v ≠ ENUMKEY_POSTfail ∧
      v ≠ ENUMKEY_errorUndefined ∧ v ≠ DIV_Last := by
  have h : ∀ m : Mode, ∀ c < 128, ∃ v, (keymap m)[c]? = some v ∧
      ((v = ENUMKEY__ ∧ v = 0) ∨ (ENUMKEY_A ≤ v ∧ v < DIV_Last)) ∧
      v ≠ ENUMKEY_errorRollOver ∧ v ≠ ENUMKEY_POSTfail ∧
      v ≠ ENUMKEY_errorUndefined ∧ v ≠ DIV_Last := by
    intro m
    cases m <;> decide
  exact h m c (by omega)

/-- C2 at chord `0x66` of the default table, a media key. -/
theorem keymap_entry_recognised_witness :
    ∃ v, (keymap Mode.Default)[0x66]? = some v ∧
      ((v = ENUMKEY__ ∧ v = 0) ∨ (ENUMKEY_A ≤ v ∧ v < DIV_Last)) ∧
      v ≠ ENUMKEY_errorRollOver ∧ v ≠ ENUMKEY_POSTfail ∧
      v ≠ ENUMKEY_errorUndefined ∧ v ≠ DIV_Last :=
  keymap_entry_recognised Mode.Default 0x66 (by decide)

/-- C3: chord `0x01` (only Pinky pressed) is bound to `ENUMKEY_W` in the default
table and to `ENUMKEY_5` in the number/symbols table. -/
theorem chord_pinky :
    (keymap Mode.Default)[0x01]? = some ENUMKEY_W ∧
    (keymap Mode.NumSym)[0x01]? = some ENUMKEY_5 := by
  decide

/-- C4: in every mode chord `0x30` (Center thumb + Near thumb) is bound to the
combinator token `MULTI_NumShift`. -/
theorem chord_numshift (m : Mode) : (keymap m)[0x30]? = some MULTI_NumShift := by
  cases m <;> decide

/-- C5: chord `0x05` (Middle + Pinky) of the default table is bound to the
open-parenthesis macro token `MACRO_openparen`. -/
theorem chord_openparen : (keymap Mode.Default)[0x05]? = some MACRO_openparen := by
  decide

/-- C6: the ranges NoOp `{ENUMKEY__}`, Plain `(0, DIV_Mods)`, Modifier
`[DIV_Mods, DIV_Modes)`, ModeChange `[DIV_Modes, DIV_Multi)`, Combinator
`[MULTI_NumShift, MULTI_CtlAlt]`, Media `[MEDIA_playpause, MEDIA_voldn]` and
Macro `[DIV_Macro, DIV_Last)` partition `[0, DIV_Last)`: the markers are
strictly increasing, every value below `DIV_Last` lies in exactly one class,
and no class reaches `DIV_Last`. -/
theorem token_classes_partition :
    (0 < DIV_Mods ∧ DIV_Mods < DIV_Modes ∧ DIV_Modes < DIV_Multi ∧
      DIV_Multi < MEDIA_playpause ∧ MEDIA_playpause < DIV_Macro ∧
      DIV_Macro < DIV_Last) ∧
    (∀ v, v < DIV_Last → ∃! k : TokenClass, inClass k v = true) ∧
    (∀ (k : TokenClass) (v : Nat), inClass k v = true → v < DIV_Last) ∧
    (∀ k₁ k₂ : TokenClass, ∀ v, inClass k₁ v = true → inClass k₂ v = true → k₁ = k₂) := by
  have hMods : DIV_Mods = 101 := by decide
  have hModes : DIV_Modes = 109 := by decide
  have hMulti : DIV_Multi = 115 := by decide
  have hNS : MULTI_NumShift = 115 := by decide
  have hCA : MULTI_CtlAlt = 116 := by decide
  have hPP : MEDIA_playpause = 117 := by decide
  have hVD : MEDIA_voldn = 122 := by decide
  have hMacro : DIV_Macro = 123 := by decide
  have hLast : DIV_Last = 144 := by decide
  have h0 : ENUMKEY__ = 0 := rfl
  have hdisj : ∀ k₁ k₂ : TokenClass, ∀ v, inClass k₁ v = true → inClass k₂ v = true →
      k₁ = k₂ := by
    intro k₁ k₂ v h₁ h₂
    cases k₁ <;> cases k₂ <;>
      simp only [inClass, Bool.and_eq_true, decide_eq_true_eq, beq_iff_eq, hMods, hModes,
        hMulti, hNS, hCA, hPP, hVD, hMacro, hLast, h0] at h₁ h₂ <;>
      first | rfl | omega
  refine ⟨by decide, ?_, ?_, hdisj⟩
  · intro v hv
    rw [hLast] at hv
    have hex : ∃ k : TokenClass, inClass k v = true := by
      by_cases c0 : v = 0
      · exact ⟨TokenClass.NoOp, by simp [inClass, h0, c0]⟩
      by_cases c1 : v < 101
      · exact ⟨TokenClass.Plain, by simp [inClass, h0, hMods]; omega⟩
      by_cases c2 : v < 109
      · exact ⟨TokenClass.Modifier, by simp [inClass, hMods, hModes]; omega⟩
      by_cases c3 : v < 115
      · exact ⟨TokenClass.ModeChange, by simp [inClass, hModes, hMulti]; omega⟩
      by_cases c4 : v < 117
      · exact ⟨TokenClass.Combinator, by simp [inClass, hNS, hCA]; omega⟩
      by_cases c5 : v < 123
      · exact ⟨TokenClass.Media, by simp [inClass, hPP, hVD]; omega⟩
      · exact ⟨TokenClass.Macro, by simp [inClass, hMacro, hLast]; omega⟩
    obtain ⟨k, hk⟩ := hex
    exact ⟨k, hk, fun k₂ hk₂ => hdisj k₂ k v hk₂ hk⟩
  · intro k v h
    cases k <;>
      simp only [inClass, Bool.and_eq_true, decide_eq_true_eq, beq_iff_eq, hMods, hModes,
        hMulti, hNS, hCA, hPP, hVD, hMacro, hLast, h0] at h ⊢ <;>
      omega

/-- C6 at `MEDIA_stop`: it is below `DIV_Last`, so exactly one class holds it. -/
theorem token_classes_partition_witness :
    ∃! k : TokenClass, inClass k MEDIA_stop = true :=
  token_classes_partition.2.1 MEDIA_stop (by decide)

/-- C7: the range `[DIV_Mods, DIV_Modes)` holds exactly the eight tokens
`MOD_LCTRL .. MOD_RGUI`, and for each of them `1 << (token - DIV_Mods)` is the
bit annotated beside it: `0x01, 0x02, 0x04, 0x08, 0x10, 0x20, 0x40, 0x80`, eight
distinct flags whose union is `0xFF`. -/
theorem modifier_flags :
    DIV_Modes - DIV_Mods = 8 ∧
    (∀ v, (DIV_Mods ≤ v ∧ v < DIV_Modes) ↔
      v ∈ [ MOD_LCTRL, MOD_LSHIFT, MOD_LALT, MOD_LGUI,
        MOD_RCTRL, MOD_RSHIFT, MOD_RALT, MOD_RGUI]) ∧
    [ MOD_LCTRL, MOD_LSHIFT, MOD_LALT, MOD_LGUI,
      MOD_RCTRL, MOD_RSHIFT, MOD_RALT, MOD_RGUI].Nodup ∧
    1 <<< (MOD_LCTRL - DIV_Mods) = 0x01 ∧
    1 <<< (MOD_LSHIFT - DIV_Mods) = 0x02 ∧
    1 <<< (MOD_LALT - DIV_Mods) = 0x04 ∧
    1 <<< (MOD_LGUI - DIV_Mods) = 0x08 ∧
    1 <<< (MOD_RCTRL - DIV_Mods) = 0x10 ∧
    1 <<< (MOD_RSHIFT - DIV_Mods) = 0x20 ∧
    1 <<< (MOD_RALT - DIV_Mods) = 0x40 ∧
    1 <<< (MOD_RGUI - DIV_Mods) = 0x80 ∧
    (List.map (fun t => 1 <<< (t - DIV_Mods))
      [ MOD_LCTRL, MOD_LSHIFT, MOD_LALT, MOD_LGUI,
        MOD_RCTRL, MOD_RSHIFT, MOD_RALT, MOD_RGUI]).Nodup ∧
    List.foldl (fun acc t => acc ||| 1 <<< (t - DIV_Mods)) 0
      [ MOD_LCTRL, MOD_LSHIFT, MOD_LALT, MOD_LGUI,
        MOD_RCTRL, MOD_RSHIFT, MOD_RALT, MOD_RGUI] = 0xFF := by
  have hMods : DIV_Mods = 101 := by decide
  have hModes : DIV_Modes = 109 := by decide
  refine ⟨by decide, ?_, by decide, by decide, by decide, by decide, by decide,
    by decide, by decide, by decide, by decide, by decide, by decide⟩
  intro v
  have e : [ MOD_LCTRL, MOD_LSHIFT, MOD_LALT, MOD_LGUI,
      MOD_RCTRL, MOD_RSHIFT, MOD_RALT, MOD_RGUI] = [101, 102, 103, 104, 105, 106, 107, 108] := by
    decide
  rw [e, hMods, hModes]
  simp only [List.mem_cons, List.mem_singleton, List.not_mem_nil, or_false]
  omega

/-- C7 at `MOD_RALT`, a value inside `[DIV_Mods, DIV_Modes)`. -/
theorem modifier_flags_witness :
    MOD_RALT ∈ [ MOD_LCTRL, MOD_LSHIFT, MOD_LALT, MOD_LGUI,
      MOD_RCTRL, MOD_RSHIFT, MOD_RALT, MOD_RGUI] :=
  (modifier_flags.2.1 MOD_RALT).1 (by decide)

/-- C8: the all-zero chord `0x00` is bound to the unused-binding token
`ENUMKEY__`, whose value is 0, in every one of the three tables. -/
theorem chord_released (m : Mode) : (keymap m)[0x00]? = some ENUMKEY__ ∧ ENUMKEY__ = 0 := by
  cases m <;> decide

/-- C9: a chord bound to `MODE_NUMLCK` in the default table is bound to
`MODE_RESET` in the number/symbols table, and a chord bound to `MODE_FUNC` in
the default or the number/symbols table is bound to `MODE_RESET` in the function
key table; chord `0x1F` is such a chord for the first case and chord `0x11` for
the second, in both tables. -/
theorem mode_entry_paired_with_reset :
    (∀ c : Nat, keymap_default[c]? = some MODE_NUMLCK →
      keymap_numsym[c]? = some MODE_RESET) ∧
    (∀ c : Nat, keymap_default[c]? = some MODE_FUNC ∨ keymap_numsym[c]? = some MODE_FUNC →
      keymap_function[c]? = some MODE_RESET) ∧
    keymap_default[0x1F]? = some MODE_NUMLCK ∧
    keymap_default[0x11]? = some MODE_FUNC ∧
    keymap_numsym[0x11]? = some MODE_FUNC := by
  have h₁ : ∀ c < 128, keymap_default[c]? = some MODE_NUMLCK →
      keymap_numsym[c]? = some MODE_RESET := by decide
  have h₂ : ∀ c < 128, keymap_default[c]? = some MODE_FUNC ∨
      keymap_numsym[c]? = some MODE_FUNC → keymap_function[c]? = some MODE_RESET := by
    decide
  refine ⟨?_, ?_, by decide, by decide, by decide⟩
  · intro c hc
    by_cases hlt : c < 128
    · exact h₁ c hlt hc
    · have hn : keymap_default[c]? = none := keymap_none_of_ge Mode.Default c (by omega)
      rw [hn] at hc
      exact absurd hc (by simp)
  · intro c hc
    by_cases hlt : c < 128
    · exact h₂ c hlt hc
    · have hd : keymap_default[c]? = none := keymap_none_of_ge Mode.Default c (by omega)
      have hn : keymap_numsym[c]? = none := keymap_none_of_ge Mode.NumSym c (by omega)
      rw [hd, hn] at hc
      exact absurd hc (by simp)

/-- C9 at chord `0x1F`: number/symbols lock in the default table, reset in the
number/symbols table. -/
theorem mode_entry_paired_with_reset_witness :
    keymap_default[0x1F]? = some MODE_NUMLCK ∧ keymap_numsym[0x1F]? = some MODE_RESET :=
  ⟨by decide, mode_entry_paired_with_reset.1 0x1F (by decide)⟩

/-- C10 as stated fails: no (mode, chord) pair is bound to `MODE_FUNCLCK`, so it
is not the case that both lock tokens are reachable from the tables. -/
theorem lock_tokens_bound_counterexample :
    ¬ ((∃ (m : Mode) (c : Nat), (keymap m)[c]? = some MODE_NUMLCK) ∧
       (∃ (m : Mode) (c : Nat), (keymap m)[c]? = some MODE_FUNCLCK)) := by
  have h : ∀ m : Mode, ∀ c < 128, (keymap m)[c]? ≠ some MODE_FUNCLCK := by
    intro m
    cases m <;> decide
  rintro ⟨-, m, c, hc⟩
  by_cases hlt : c < 128
  · exact h m c hlt hc
  · rw [keymap_none_of_ge m c (by omega)] at hc
    exact absurd hc (by simp)

/-- C10, amended: the number/symbols mode can be locked from the tables, chord
`0x1F` of the default table being bound to `MODE_NUMLCK`, whereas no chord of
any table is bound to `MODE_FUNCLCK`. -/
theorem lock_tokens_bound :
    (∃ (m : Mode) (c : Nat), (keymap m)[c]? = some MODE_NUMLCK) ∧
    (keymap Mode.Default)[0x1F]? = some MODE_NUMLCK ∧
    ∀ (m : Mode) (c : Nat), (keymap m)[c]? ≠ some MODE_FUNCLCK := by
  have h : ∀ m : Mode, ∀ c < 128, (keymap m)[c]? ≠ some MODE_FUNCLCK := by
    intro m
    cases m <;> decide
  refine ⟨⟨Mode.Default, 0x1F, by decide⟩, by decide, ?_⟩
  intro m c hc
  by_cases hlt : c < 128
  · exact h m c hlt hc
  · rw [keymap_none_of_ge m c (by omega)] at hc
    exact absurd hc (by simp)

/-- A token that occurs at most once in a list is found at one index only. -/
theorem index_unique_of_count_le_one (l : List Nat) (t : Nat) (h : l.count t ≤ 1)
    (c₁ c₂ : Nat) (h₁ : l[c₁]? = some t) (h₂ : l[c₂]? = some t) : c₁ = c₂ := by
  induction l generalizing c₁ c₂ with
  | nil => simp at h₁
  | cons a l ih =>
    rw [List.count_cons] at h
    cases c₁ with
    | zero =>
      cases c₂ with
      | zero => rfl
      | succ j =>
        simp only [List.getElem?_cons_zero, Option.some.injEq] at h₁
        simp only [List.getElem?_cons_succ] at h₂
        have hpos : 0 < l.count t := List.count_pos_iff.mpr (List.getElem?_mem h₂)
        simp only [h₁, beq_self_eq_true, if_true] at h
        omega
    | succ i =>
      cases c₂ with
      | zero =>
        simp only [List.getElem?_cons_zero, Option.some.injEq] at h₂
        simp only [List.getElem?_cons_succ] at h₁
        have hpos : 0 < l.count t := List.count_pos_iff.mpr (List.getElem?_mem h₁)
        simp only [h₂, beq_self_eq_true, if_true] at h
        omega
      | succ j =>
        simp only [List.getElem?_cons_succ] at h₁ h₂
        have hle : l.count t ≤ 1 := by omega
        rw [ih hle i j h₁ h₂]

/-- A token that occurs exactly once in a list is found at exactly one index. -/
theorem existsUnique_index_of_count_eq_one (l : List Nat) (t : Nat) (h : l.count t = 1) :
    ∃! c : Nat, l[c]? = some t := by
  have hmem : t ∈ l := List.count_pos_iff.mp (by omega)
  obtain ⟨c, hc⟩ := List.getElem?_of_mem hmem
  exact ⟨c, hc, fun c₂ hc₂ => index_unique_of_count_le_one l t (by omega) c₂ c hc₂ hc⟩

/-- C11: the expansion of `MACRO_openparen`, the token bound to chord `0x05` of
the default table, is the ordered sequence Shift+9, Left-Arrow: exactly two
primitive events, the second being `ENUMKEY_larr` with no forced modifier. -/
theorem openparen_expansion :
    (keymap Mode.Default)[0x05]? = some MACRO_openparen ∧
    expand MACRO_openparen =
      some [(ForcedMod.LShift, ENUMKEY_9), (ForcedMod.NoMods, ENUMKEY_larr)] ∧
    (keymap Mode.Default)[0x05]?.bind expand =
      some [(ForcedMod.LShift, ENUMKEY_9), (ForcedMod.NoMods, ENUMKEY_larr)] ∧
    (expand MACRO_openparen).map List.length = some 2 ∧
    (expand MACRO_openparen).bind (fun events => events[1]?) =
      some (ForcedMod.NoMods, ENUMKEY_larr) := by
  decide

/-- C12: `MACRO_parens`, bound to chord `0x2A` of the number/symbols table,
expands to exactly three primitive events in this order: Shift+`ENUMKEY_9`,
Shift+`ENUMKEY_0`, then `ENUMKEY_larr` with no forced modifier; the expansion is
a function of the token alone. -/
theorem parens_expansion :
    (keymap Mode.NumSym)[0x2A]? = some MACRO_parens ∧
    expand MACRO_parens =
      some [(ForcedMod.LShift, ENUMKEY_9), (ForcedMod.LShift, ENUMKEY_0),
        (ForcedMod.NoMods, ENUMKEY_larr)] ∧
    (expand MACRO_parens).map List.length = some 3 ∧
    ∀ token : Nat, token = MACRO_parens → expand token = expand MACRO_parens := by
  refine ⟨by decide, by decide, by decide, ?_⟩
  intro token h
  rw [h]

/-- C12 at the token found at chord `0x2A` of the number/symbols table, given by
its value. -/
theorem parens_expansion_witness : expand 126 = expand MACRO_parens :=
  parens_expansion.2.2.2 126 (by decide)

/-- C13: the plain-key enumerators have the USB HID scan-code values annotated
beside them. -/
theorem plain_key_values :
    ENUMKEY__ = 0x00 ∧ ENUMKEY_A = 0x04 ∧ ENUMKEY_M = 0x10 ∧ ENUMKEY_3 = 0x20 ∧
    ENUMKEY_0 = 0x27 ∧ ENUMKEY_enter = 0x28 ∧ ENUMKEY_esc = 0x29 ∧
    ENUMKEY_bckspc = 0x2A ∧ ENUMKEY_tab = 0x2B ∧ ENUMKEY_spc = 0x2C ∧
    ENUMKEY_minus = 0x2D ∧ ENUMKEY_equal = 0x2E ∧ ENUMKEY_lbr = 0x2F ∧
    ENUMKEY_rbr = 0x30 ∧ ENUMKEY_bckslsh = 0x31 ∧ ENUMKEY_hash = 0x32 ∧
    ENUMKEY_smcol = 0x33 ∧ ENUMKEY_ping = 0x34 ∧ ENUMKEY_grave = 0x35 ∧
    ENUMKEY_comma = 0x36 ∧ ENUMKEY_dot = 0x37 ∧ ENUMKEY_slash = 0x38 ∧
    ENUMKEY_cpslck = 0x39 ∧ ENUMKEY_F7 = 0x40 ∧ ENUMKEY_larr = 0x50 ∧
    ENUMKEY_KP8 = 0x60 := by
  decide

/-- C14 as stated fails: the value of `ENUMKEY_KP5` is not `0x5E`. -/
theorem kp5_value_counterexample : ¬ (ENUMKEY_KP5 = 0x5E) := by
  decide

/-- C14, amended: `ENUMKEY_KP5` has the value `0x5D`, thirteen after
`ENUMKEY_larr = 0x50` and three before `ENUMKEY_KP8 = 0x60`; the value `0x5E`
annotated beside it is that of the next enumerator, `ENUMKEY_KP6`. -/
theorem kp5_value :
    ENUMKEY_KP5 = 0x5D ∧ ENUMKEY_KP6 = 0x5E ∧
    ENUMKEY_KP5 = ENUMKEY_larr + 13 ∧ ENUMKEY_KP5 + 3 = ENUMKEY_KP8 := by
  decide

/-- C15 as stated fails: in the default table `MEDIA_previous` is bound to the
two chords `0x69` and `0x6E`, so a Media token can be bound to more than one
chord of a table. -/
theorem media_binding_unique_counterexample :
    ¬ (∀ (m : Mode) (c₁ c₂ t : Nat), c₁ ≤ 127 → c₂ ≤ 127 →
      (keymap m)[c₁]? = some t → (keymap m)[c₂]? = some t →
      t ∈ [ MEDIA_playpause, MEDIA_next, MEDIA_previous, MEDIA_stop,
        MEDIA_volup, MEDIA_voldn] → c₁ = c₂) := by
  intro h
  have h₁ : (0x69 : Nat) = 0x6E :=
    h Mode.Default 0x69 0x6E MEDIA_previous (by decide) (by decide) (by decide) (by decide)
      (by decide)
  exact absurd h₁ (by decide)

/-- C15, amended: within each of the three tables no Media token other than
`MEDIA_previous` is bound to more than one chord; `MEDIA_previous` is bound to
exactly the chords `0x69` and `0x6E` of the default table, to exactly the chords
`0x09` and `0x48` of the function key table and to no chord of the
number/symbols table. -/
theorem media_binding_unique :
    (∀ (m : Mode) (c₁ c₂ t : Nat),
      (keymap m)[c₁]? = some t → (keymap m)[c₂]? = some t →
      t ∈ [ MEDIA_playpause, MEDIA_next, MEDIA_previous, MEDIA_stop,
        MEDIA_volup, MEDIA_voldn] → t ≠ MEDIA_previous → c₁ = c₂) ∧
    (∀ c : Nat, (keymap Mode.Default)[c]? = some MEDIA_previous ↔ c = 0x69 ∨ c = 0x6E) ∧
    (∀ c : Nat, (keymap Mode.Function)[c]? = some MEDIA_previous ↔ c = 0x09 ∨ c = 0x48) ∧
    (∀ c : Nat, (keymap Mode.NumSym)[c]? ≠ some MEDIA_previous) := by
  have hcount : ∀ m : Mode, ∀ t ∈ [ MEDIA_playpause, MEDIA_next, MEDIA_previous,
      MEDIA_stop, MEDIA_volup, MEDIA_voldn], t ≠ MEDIA_previous →
      (keymap m).count t ≤ 1 := by
    intro m
    cases m <;> decide
  have hd : ∀ c < 128, ((keymap Mode.Default)[c]? = some MEDIA_previous ↔
      c = 0x69 ∨ c = 0x6E) := by decide
  have hf : ∀ c < 128, ((keymap Mode.Function)[c]? = some MEDIA_previous ↔
      c = 0x09 ∨ c = 0x48) := by decide
  have hn : ∀ c < 128, (keymap Mode.NumSym)[c]? ≠ some MEDIA_previous := by decide
  refine ⟨?_, ?_, ?_, ?_⟩
  · intro m c₁ c₂ t h₁ h₂ ht hne
    exact index_unique_of_count_le_one (keymap m) t (hcount m t ht hne) c₁ c₂ h₁ h₂
  · intro c
    by_cases hlt : c < 128
    · exact hd c hlt
    · rw [keymap_none_of_ge Mode.Default c (by omega)]
      constructor
      · intro h
        exact absurd h (by simp)
      · intro h
        omega
  · intro c
    by_cases hlt : c < 128
    · exact hf c hlt
    · rw [keymap_none_of_ge Mode.Function c (by omega)]
      constructor
      · intro h
        exact absurd h (by simp)
      · intro h
        omega
  · intro c
    by_cases hlt : c < 128
    · exact hn c hlt
    · rw [keymap_none_of_ge Mode.NumSym c (by omega)]
      simp

/-- C15, amended, at `MEDIA_volup` in the default table: two lookups of chord
`0x63` that find it name the same chord. -/
theorem media_binding_unique_witness :
    (keymap Mode.Default)[0x63]? = some MEDIA_volup ∧ MEDIA_volup ≠ MEDIA_previous ∧
    (0x63 : Nat) = 0x63 :=
  ⟨by decide, by decide,
    media_binding_unique.1 Mode.Default 0x63 0x63 MEDIA_volup (by decide) (by decide)
      (by decide) (by decide)⟩

/-- C16: a chord that one table binds to a Modifier token (a value in
`[DIV_Mods, DIV_Modes)`) is bound to that same token by all three tables, and in
every table each of the eight modifier tokens is bound to exactly one chord:
`MOD_LALT 0x17`, `MOD_LGUI 0x1A`, `MOD_LCTRL 0x1B`, `MOD_RALT 0x37`,
`MOD_RGUI 0x3A`, `MOD_RCTRL 0x3B`, `MOD_LSHIFT 0x40`, `MOD_RSHIFT 0x60`. -/
theorem modifier_bindings_mode_independent :
    (∀ (m : Mode) (c t : Nat), DIV_Mods ≤ t → t < DIV_Modes →
      (keymap m)[c]? = some t → ∀ m₂ : Mode, (keymap m₂)[c]? = some t) ∧
    (∀ (m : Mode) (c : Nat),
      ((keymap m)[c]? = some MOD_LALT ↔ c = 0x17) ∧
      ((keymap m)[c]? = some MOD_LGUI ↔ c = 0x1A) ∧
      ((keymap m)[c]? = some MOD_LCTRL ↔ c = 0x1B) ∧
      ((keymap m)[c]? = some MOD_RALT ↔ c = 0x37) ∧
      ((keymap m)[c]? = some MOD_RGUI ↔ c = 0x3A) ∧
      ((keymap m)[c]? = some MOD_RCTRL ↔ c = 0x3B) ∧
      ((keymap m)[c]? = some MOD_LSHIFT ↔ c = 0x40) ∧
      ((keymap m)[c]? = some MOD_RSHIFT ↔ c = 0x60)) := by
  have hMods : DIV_Mods = 101 := by decide
  have hModes : DIV_Modes = 109 := by decide
  have hsame : ∀ m : Mode, ∀ c < 128, ∀ t ∈ [101, 102, 103, 104, 105, 106, 107, 108],
      (keymap m)[c]? = some t →
      (keymap Mode.Default)[c]? = some t ∧ (keymap Mode.NumSym)[c]? = some t ∧
        (keymap Mode.Function)[c]? = some t := by
    intro m
    cases m <;> decide
  have hone : ∀ m : Mode, ∀ c < 128,
      ((keymap m)[c]? = some MOD_LALT ↔ c = 0x17) ∧
      ((keymap m)[c]? = some MOD_LGUI ↔ c = 0x1A) ∧
      ((keymap m)[c]? = some MOD_LCTRL ↔ c = 0x1B) ∧
      ((keymap m)[c]? = some MOD_RALT ↔ c = 0x37) ∧
      ((keymap m)[c]? = some MOD_RGUI ↔ c = 0x3A) ∧
      ((keymap m)[c]? = some MOD_RCTRL ↔ c = 0x3B) ∧
      ((keymap m)[c]? = some MOD_LSHIFT ↔ c = 0x40) ∧
      ((keymap m)[c]? = some MOD_RSHIFT ↔ c = 0x60) := by
    intro m
    cases m <;> decide
  constructor
  · intro m c t hlo hhi h m₂
    by_cases hlt : c < 128
    · have hmem : t ∈ [101, 102, 103, 104, 105, 106, 107, 108] := by
        simp only [List.mem_cons, List.mem_singleton, List.not_mem_nil, or_false]
        omega
      obtain ⟨h₁, h₂, h₃⟩ := hsame m c hlt t hmem h
      cases m₂
      · exact h₁
      · exact h₂
      · exact h₃
    · rw [keymap_none_of_ge m c (by omega)] at h
      exact absurd h (by simp)
  · intro m c
    by_cases hlt : c < 128
    · exact hone m c hlt
    · rw [keymap_none_of_ge m c (by omega)]
      simp only [reduceCtorEq, false_iff]
      omega

/-- C16 at chord `0x40`: `MOD_LSHIFT` in the default table, hence in the function
key table. -/
theorem modifier_bindings_mode_independent_witness :
    (keymap Mode.Default)[0x40]? = some MOD_LSHIFT ∧
    (keymap Mode.Function)[0x40]? = some MOD_LSHIFT :=
  ⟨by decide,
    modifier_bindings_mode_independent.1 Mode.Default 0x40 MOD_LSHIFT (by decide)
      (by decide) (by decide) Mode.Function⟩

/-- C17: the values from `ENUMKEY_A` to `ENUMKEY_Z` are the 26 letter tokens;
for each of them there is exactly one chord of the default table bound to it,
and every such chord is one of `0..127` that uses neither the Far thumb nor the
Near thumb button (`c & 0x50 = 0`). -/
theorem default_alphabet :
    List.range' ENUMKEY_A 26 =
      [ENUMKEY_A, ENUMKEY_B, ENUMKEY_C, ENUMKEY_D, ENUMKEY_E, ENUMKEY_F, ENUMKEY_G,
        ENUMKEY_H, ENUMKEY_I, ENUMKEY_J, ENUMKEY_K, ENUMKEY_L, ENUMKEY_M, ENUMKEY_N,
        ENUMKEY_O, ENUMKEY_P, ENUMKEY_Q, ENUMKEY_R, ENUMKEY_S, ENUMKEY_T, ENUMKEY_U,
        ENUMKEY_V, ENUMKEY_W, ENUMKEY_X, ENUMKEY_Y, ENUMKEY_Z] ∧
    (∀ t : Nat, ENUMKEY_A ≤ t → t ≤ ENUMKEY_Z →
      ∃! c : Nat, keymap_default[c]? = some t) ∧
    (∀ c t : Nat, ENUMKEY_A ≤ t → t ≤ ENUMKEY_Z → keymap_default[c]? = some t →
      c ≤ 127 ∧ c &&& 0x50 = 0) := by
  have hA : ENUMKEY_A = 4 := by decide
  have hZ : ENUMKEY_Z = 29 := by decide
  have hcount : ∀ t < 30, 4 ≤ t → keymap_default.count t = 1 := by decide
  have hbits : ∀ c < 128, ∀ t ∈ List.range' 4 26, keymap_default[c]? = some t →
      c &&& 0x50 = 0 := by decide
  refine ⟨by decide, ?_, ?_⟩
  · intro t hlo hhi
    rw [hA] at hlo
    rw [hZ] at hhi
    exact existsUnique_index_of_count_eq_one keymap_default t (hcount t (by omega) hlo)
  · intro c t hlo hhi h
    rw [hA] at hlo
    rw [hZ] at hhi
    by_cases hlt : c < 128
    · refine ⟨by omega, hbits c hlt t ?_ h⟩
      rw [List.mem_range']
      exact ⟨t - 4, by omega, by omega⟩
    · have hn : keymap_default[c]? = none := keymap_none_of_ge Mode.Default c (by omega)
      rw [hn] at h
      exact absurd h (by simp)

/-- C17 at `ENUMKEY_Q`: exactly one chord of the default table is bound to it. -/
theorem default_alphabet_witness : ∃! c : Nat, keymap_default[c]? = some ENUMKEY_Q :=
  default_alphabet.2.1 ENUMKEY_Q (by decide) (by decide)

/-- C18: for every `n` from 1 to 9 a chord is bound to the digit `ENUMKEY_n` in
the number/symbols table if and only if it is bound to `ENUMKEY_Fn` in the
function key table, and each digit token `ENUMKEY_0 .. ENUMKEY_9` is bound to
exactly one chord of the number/symbols table. -/
theorem digit_chords_are_function_chords :
    (∀ p ∈ [(ENUMKEY_1, ENUMKEY_F1), (ENUMKEY_2, ENUMKEY_F2), (ENUMKEY_3, ENUMKEY_F3),
        (ENUMKEY_4, ENUMKEY_F4), (ENUMKEY_5, ENUMKEY_F5), (ENUMKEY_6, ENUMKEY_F6),
        (ENUMKEY_7, ENUMKEY_F7), (ENUMKEY_8, ENUMKEY_F8), (ENUMKEY_9, ENUMKEY_F9)],
      ∀ c : Nat, keymap_numsym[c]? = some p.1 ↔ keymap_function[c]? = some p.2) ∧
    (∀ d ∈ [ENUMKEY_0, ENUMKEY_1, ENUMKEY_2, ENUMKEY_3, ENUMKEY_4, ENUMKEY_5,
        ENUMKEY_6, ENUMKEY_7, ENUMKEY_8, ENUMKEY_9],
      ∃! c : Nat, keymap_numsym[c]? = some d) := by
  have hiff : ∀ p ∈ [(ENUMKEY_1, ENUMKEY_F1), (ENUMKEY_2, ENUMKEY_F2),
      (ENUMKEY_3, ENUMKEY_F3), (ENUMKEY_4, ENUMKEY_F4), (ENUMKEY_5, ENUMKEY_F5),
      (ENUMKEY_6, ENUMKEY_F6), (ENUMKEY_7, ENUMKEY_F7), (ENUMKEY_8, ENUMKEY_F8),
      (ENUMKEY_9, ENUMKEY_F9)],
      ∀ c < 128, (keymap_numsym[c]? = some p.1 ↔ keymap_function[c]? = some p.2) := by
    decide
  have hcount : ∀ d ∈ [ENUMKEY_0, ENUMKEY_1, ENUMKEY_2, ENUMKEY_3, ENUMKEY_4, ENUMKEY_5,
      ENUMKEY_6, ENUMKEY_7, ENUMKEY_8, ENUMKEY_9], keymap_numsym.count d = 1 := by
    decide
  constructor
  · intro p hp c
    by_cases hlt : c < 128
    · exact hiff p hp c hlt
    · have hn : keymap_numsym[c]? = none := keymap_none_of_ge Mode.NumSym c (by omega)
      have hf : keymap_function[c]? = none := keymap_none_of_ge Mode.Function c (by omega)
      rw [hn, hf]
      simp
  · intro d hd
    exact existsUnique_index_of_count_eq_one keymap_numsym d (hcount d hd)

/-- C18 at the digit 7: chord `0x24` is bound to `ENUMKEY_7` in the
number/symbols table, hence to `ENUMKEY_F7` in the function key table. -/
theorem digit_chords_are_function_chords_witness :
    keymap_numsym[0x24]? = some ENUMKEY_7 ∧ keymap_function[0x24]? = some ENUMKEY_F7 :=
  ⟨by decide,
    (digit_chords_are_function_chords.1 (ENUMKEY_7, ENUMKEY_F7) (by decide) 0x24).mp
      (by decide)⟩

/-- C19: a table entry is `MODE_MRESET` if and only if it is the entry of chord
`0x70` (all three thumb buttons, no finger button) of the default table. -/
theorem master_reset_binding (m : Mode) (c : Nat) :
    (keymap m)[c]? = some MODE_MRESET ↔ (m = Mode.Default ∧ c = 0x70) := by
  have h : ∀ m : Mode, ∀ c < 128,
      ((keymap m)[c]? = some MODE_MRESET ↔ (m = Mode.Default ∧ c = 0x70)) := by
    intro m
    cases m <;> decide
  by_cases hlt : c < 128
  · exact h m c hlt
  · rw [keymap_none_of_ge m c (by omega)]
    simp only [reduceCtorEq, false_iff, not_and]
    intro _
    omega

/-- C20: chord `0x70` (all three thumb buttons) is bound to `MODE_MRESET` in the
default table and to `MODE_RESET` in the number/symbols and function key
tables, a reset token in every mode. -/
theorem chord_all_thumbs :
    (keymap Mode.Default)[0x70]? = some MODE_MRESET ∧
    (keymap Mode.NumSym)[0x70]? = some MODE_RESET ∧
    (keymap Mode.Function)[0x70]? = some MODE_RESET ∧
    ∀ m : Mode, (keymap m)[0x70]? = some MODE_RESET ∨ (keymap m)[0x70]? = some MODE_MRESET := by
  refine ⟨by decide, by decide, by decide, ?_⟩
  intro m
  cases m <;> decide

/-- C21: any two different enumerators of `enum keycodes` other than the `DIV_`
markers have different values (the list of their values has no repetition, so
two positions with the same value are the same position), each of the markers
`DIV_Mods`, `DIV_Modes`, `DIV_Multi`, `DIV_Macro` equals the first token of the
group it opens, and every table entry is the value of exactly one such
enumerator. -/
theorem keycodes_injective :
    keycodes.length = 144 ∧ keycodes.Nodup ∧
    (∀ i j : Nat, i < keycodes.length → j < keycodes.length →
      keycodes[i]? = keycodes[j]? → i = j) ∧
    DIV_Mods = MOD_LCTRL ∧ DIV_Modes = MODE_RESET ∧
    DIV_Multi = MULTI_NumShift ∧ DIV_Macro = MACRO_000 ∧
    (∀ (m : Mode) (c : Nat), c ≤ 127 →
      ∃! i : Nat, keycodes[i]? = (keymap m)[c]?) := by
  have hnodup : keycodes.Nodup := by decide
  have hentry : ∀ m : Mode, ∀ v ∈ keymap m, keycodes.count v = 1 := by
    intro m
    cases m <;> decide
  refine ⟨rfl, hnodup, ?_, rfl, rfl, rfl, rfl, ?_⟩
  · intro i j hi _ h
    obtain ⟨v, hv⟩ : ∃ v, keycodes[i]? = some v := ⟨keycodes[i], List.getElem?_eq_getElem hi⟩
    have hle : keycodes.count v ≤ 1 := List.nodup_iff_count_le_one.mp hnodup v
    exact index_unique_of_count_le_one keycodes v hle i j hv (by rw [← h, hv])
  · intro m c hc
    have hlt : c < (keymap m).length := by
      rw [keymap_length]
      omega
    have hv : (keymap m)[c]? = some (keymap m)[c] := List.getElem?_eq_getElem hlt
    have hmem : (keymap m)[c] ∈ keymap m := List.getElem_mem hlt
    rw [hv]
    exact existsUnique_index_of_count_eq_one keycodes _ (hentry m _ hmem)

/-- C21 at `MOD_LCTRL` and `MODE_RESET`, the enumerators at positions 101 and 109:
different positions, hence different values. -/
theorem keycodes_injective_witness :
    keycodes[101]? = some MOD_LCTRL ∧ keycodes[109]? = some MODE_RESET ∧
    ¬ (keycodes[101]? = keycodes[109]?) :=
  ⟨by decide, by decide, fun h =>
    absurd (keycodes_injective.2.2.1 101 109 (by decide) (by decide) h) (by decide)⟩

end FeatherChorder
